import Mathlib

/-!
Shallow embedding of `internal/clusterinfo/lookup_peer.go` (package clusterinfo).

The file being modelled contains the `LookupPeer` struct, its constructor
`NewLookupPeer`, the operations `Connect`, `Read`, `Write`, `Close`, `Command`,
and the frame decoder `readResponseBounded`.

Modelling decisions (each one traceable to the Go source):
* Byte streams are `List Nat`, each element a byte value 0..255 (the decoder
  reduces elements mod 256, so the functions are total on `Nat`).
* `net.Conn` is modelled as a `Conn` record holding a script of transport
  behaviour: whether the magic-preamble write succeeds, whether the command
  write succeeds, and the byte stream the server answers with.  A `closed`
  flag models the file-descriptor state: Go's `net.Conn.Close` returns an
  error ("use of closed network connection", from `internal/poll.FD.Close`)
  when invoked on an already-closed connection, and `LookupPeer.Close` never
  clears the `conn` field, so a second `Close` re-closes the same handle.
* The `connectCallback func(*LookupPeer)` field is represented by the single
  bit that the claims depend on: whether it is nil (`cbNil`).  Calling a nil
  Go function value panics, which the model surfaces as an explicit
  `CmdOutcome.panic` value; likewise `make([]byte, n)` with negative `n`
  panics at run time, surfaced as `ReadResult.allocFault`.
* `Command` additionally returns a trace of I/O events so that ordering and
  multiplicity of the magic write, the callback invocation, the command write
  and the frame read are observable.
-/

/-- Connection states, from the `const ( stateInit = iota ... )` block. -/
def stateInit : Nat := 0

/-- `stateDisconnected = 1` in the iota block. -/
def stateDisconnected : Nat := 1

/-- `stateConnected = 2` in the iota block. -/
def stateConnected : Nat := 2

/-- `stateSubscribed = 3` in the iota block (declared, never used). -/
def stateSubscribed : Nat := 3

/-- `stateClosing = 4` in the iota block (declared, never used). -/
def stateClosing : Nat := 4

/-- Scripted behaviour of one transport connection obtained from a dial:
whether the magic-preamble write succeeds, whether the command-body write
(`cmd.WriteTo(lp)`) succeeds, and the bytes the server sends back. -/
structure ConnScript where
  magicWriteOk : Bool
  cmdWriteOk : Bool
  response : List Nat
  deriving DecidableEq

/-- A live transport handle (`net.Conn`): its script, whether `Close` has
already been called on it, and whether the magic preamble write has been
issued on it (issued, not necessarily successful: `Command` ignores the
result of `lp.Write(nsq.MagicV1)`). -/
structure Conn where
  script : ConnScript
  closed : Bool
  magicIssued : Bool
  deriving DecidableEq

/-- The `LookupPeer` struct.  `conn net.Conn` is an interface value, nil until
the first successful dial, hence `Option Conn`.  `cbNil` records whether the
`connectCallback` function value is nil. -/
structure LookupPeer where
  addr : String
  conn : Option Conn
  state : Nat
  cbNil : Bool
  maxBodySize : Int
  deriving DecidableEq

/-- `NewLookupPeer`: starts with `state: stateDisconnected` and a nil `conn`. -/
def newLookupPeer (addr : String) (maxBodySize : Int) (cbNil : Bool) : LookupPeer :=
  ⟨addr, none, stateDisconnected, cbNil, maxBodySize⟩

/-- Error values a `LookupPeer` operation can return.  `closeError` is the
"use of closed network connection" error Go's `net.Conn.Close` returns on a
second close of the same handle. -/
inductive Err where
  | dialError
  | writeError
  | eofError
  | sizeError (msgSize limit : Int)
  | closeError
  deriving DecidableEq

/-- `Connect`: `net.DialTimeout`, and on success `lp.conn = conn`.  The dial
outcome is an input (`none` = dial error).  On failure the receiver is
untouched; on success only the `conn` field changes — `state` is not
written by `Connect`. -/
def connect (lp : LookupPeer) (dial : Option ConnScript) : Option Err × LookupPeer :=
  match dial with
  | none => (some Err.dialError, lp)
  | some s => (none, ⟨lp.addr, some ⟨s, false, false⟩, lp.state, lp.cbNil, lp.maxBodySize⟩)

/-- `Close`: sets `lp.state = stateDisconnected`; then, if `lp.conn != nil`,
returns `lp.conn.Close()`.  The `conn` field is never reset to nil, and Go's
`net.Conn.Close` errors when the handle is already closed, which the
`closed` flag reproduces. -/
def close (lp : LookupPeer) : Option Err × LookupPeer :=
  match lp.conn with
  | none => (none, ⟨lp.addr, none, stateDisconnected, lp.cbNil, lp.maxBodySize⟩)
  | some c =>
    if c.closed then
      (some Err.closeError, ⟨lp.addr, some c, stateDisconnected, lp.cbNil, lp.maxBodySize⟩)
    else
      (none, ⟨lp.addr, some ⟨c.script, true, c.magicIssued⟩, stateDisconnected, lp.cbNil,
        lp.maxBodySize⟩)

/-- The unsigned value of 4 bytes read big-endian, as
`binary.Read(r, binary.BigEndian, &msgSize)` assembles them. -/
def u32OfBytes (b0 b1 b2 b3 : Nat) : Nat :=
  b0 % 256 * 16777216 + b1 % 256 * 65536 + b2 % 256 * 256 + b3 % 256

/-- The signed `int32` value of 4 big-endian bytes (two's complement), the
value `binary.Read` stores into `var msgSize int32`. -/
def int32OfBytes (b0 b1 b2 b3 : Nat) : Int :=
  if u32OfBytes b0 b1 b2 b3 < 2147483648 then (u32OfBytes b0 b1 b2 b3 : Int)
  else (u32OfBytes b0 b1 b2 b3 : Int) - 4294967296

/-- Big-endian 4-byte encoding of a non-negative length (the framing the
server side uses for `[4-byte length][body]`). -/
def bytesOfInt32 (n : Nat) : List Nat :=
  [n / 16777216 % 256, n / 65536 % 256, n / 256 % 256, n % 256]

/-- Result of `readResponseBounded`.  `allocFault` is the run-time panic of
`make([]byte, msgSize)` when `msgSize` is negative (Go: "makeslice: len out
of range"); the source performs no `msgSize < 0` check before allocating. -/
inductive ReadResult where
  | ok (body : List Nat)
  | err (e : Err)
  | allocFault (msgSize : Int)
  deriving DecidableEq

/-- `readResponseBounded(r io.Reader, limit int64)`, with the stream made
explicit: returns the result together with the unconsumed remainder of the
stream.  Branches, in source order:
1. `binary.Read` of the 4-byte big-endian `int32` size (fewer than 4 bytes
   available: error, modelled `Err.eofError`);
2. `if int64(msgSize) > limit` → descriptive size error, body not touched;
3. `buf := make([]byte, msgSize)` — panics when `msgSize < 0`;
4. `io.ReadFull(r, buf)` — fills all `msgSize` bytes, retrying short reads,
   or errors if the stream ends first (modelled `Err.eofError`). -/
def readResponseBoundedS (stream : List Nat) (limit : Int) : ReadResult × List Nat :=
  match stream with
  | b0 :: b1 :: b2 :: b3 :: rest =>
    if limit < int32OfBytes b0 b1 b2 b3 then
      (ReadResult.err (Err.sizeError (int32OfBytes b0 b1 b2 b3) limit), rest)
    else if int32OfBytes b0 b1 b2 b3 < 0 then
      (ReadResult.allocFault (int32OfBytes b0 b1 b2 b3), rest)
    else if rest.length < (int32OfBytes b0 b1 b2 b3).toNat then
      (ReadResult.err Err.eofError, [])
    else
      (ReadResult.ok (rest.take (int32OfBytes b0 b1 b2 b3).toNat),
       rest.drop (int32OfBytes b0 b1 b2 b3).toNat)
  | _ => (ReadResult.err Err.eofError, [])

/-- Observable I/O events of one `Command` call, in order of occurrence. -/
inductive Event where
  | magicWrite (ok : Bool)
  | callbackInvoked
  | cmdWrite (ok : Bool)
  | frameRead
  | closeCalled
  deriving DecidableEq

/-- Number of `callbackInvoked` events in a trace. -/
def cbCount : List Event → Nat
  | [] => 0
  | e :: tr => (if e = Event.callbackInvoked then 1 else 0) + cbCount tr

/-- What a `Command` call does when control leaves it: returns a body,
returns an error, or panics.  Panics: calling the nil `connectCallback`,
calling a method on the nil `conn` interface, or the negative-size
allocation inside `readResponseBounded`. -/
inductive PanicKind where
  | nilCallback
  | nilConn
  | negAlloc (msgSize : Int)
  deriving DecidableEq

/-- Outcome of `Command`. -/
inductive CmdOutcome where
  | ok (body : List Nat)
  | err (e : Err)
  | panic (p : PanicKind)
  deriving DecidableEq

/-- The part of `Command` after the connect/preamble/callback phase, from
`if cmd == nil` on.  `tr` is the trace accumulated by the connect phase.
Branches, in source order:
* `if cmd == nil { return nil, nil }` (no body write, no frame read);
* `cmd.WriteTo(lp)` — on error `lp.Close()` and propagate;
* `readResponseBounded(lp, lp.maxBodySize)` — on error `lp.Close()` and
  propagate; a panic inside it escapes without `Close` being run;
* on success the response bytes consumed so far are removed from the
  connection's script, and the body is returned. -/
def commandBody (lp : LookupPeer) (hasCmd : Bool) (tr : List Event) :
    CmdOutcome × LookupPeer × List Event :=
  if hasCmd = false then (CmdOutcome.ok [], lp, tr)
  else
    match lp.conn with
    | none => (CmdOutcome.panic PanicKind.nilConn, lp, tr)
    | some c =>
      if c.script.cmdWriteOk = false then
        (CmdOutcome.err Err.writeError, (close lp).2, tr ++ [Event.cmdWrite false,
          Event.closeCalled])
      else
        match readResponseBoundedS c.script.response lp.maxBodySize with
        | (ReadResult.ok body, restStream) =>
          (CmdOutcome.ok body,
           ⟨lp.addr, some ⟨⟨c.script.magicWriteOk, c.script.cmdWriteOk, restStream⟩,
             c.closed, c.magicIssued⟩, lp.state, lp.cbNil, lp.maxBodySize⟩,
           tr ++ [Event.cmdWrite true, Event.frameRead])
        | (ReadResult.err e, _) =>
          (CmdOutcome.err e, (close lp).2, tr ++ [Event.cmdWrite true, Event.frameRead,
            Event.closeCalled])
        | (ReadResult.allocFault m, _) =>
          (CmdOutcome.panic (PanicKind.negAlloc m), lp, tr ++ [Event.cmdWrite true,
            Event.frameRead])

/-- `Command(cmd *nsq.Command)`.  `dial` is the outcome `Connect` would see;
`hasCmd` is `cmd != nil`.  Faithful to the source order:
`initialState := lp.state`; if `lp.state != stateConnected` then `Connect`
(propagating a dial error with the receiver untouched), `lp.state =
stateConnected`, `lp.Write(nsq.MagicV1)` with its error ignored, and
`if initialState == stateDisconnected { lp.connectCallback(lp) }` — a nil
callback panics here, after the struct was already mutated; then the body
phase (`commandBody`). -/
def command (lp : LookupPeer) (dial : Option ConnScript) (hasCmd : Bool) :
    CmdOutcome × LookupPeer × List Event :=
  if lp.state = stateConnected then
    commandBody lp hasCmd []
  else
    match dial with
    | none => (CmdOutcome.err Err.dialError, lp, [])
    | some s =>
      let lp1 : LookupPeer := ⟨lp.addr, some ⟨s, false, true⟩, stateConnected, lp.cbNil,
        lp.maxBodySize⟩
      if lp.state = stateDisconnected then
        if lp.cbNil then
          (CmdOutcome.panic PanicKind.nilCallback, lp1, [Event.magicWrite s.magicWriteOk])
        else
          commandBody lp1 hasCmd [Event.magicWrite s.magicWriteOk, Event.callbackInvoked]
      else
        commandBody lp1 hasCmd [Event.magicWrite s.magicWriteOk]

/-- Boolean form of the connection invariant used by claim C8, amended:
whenever the recorded state is `stateConnected`, a non-nil handle exists and
the magic-preamble write has been issued on it. -/
def magicInv (lp : LookupPeer) : Bool :=
  if lp.state = stateConnected then
    match lp.conn with
    | some c => c.magicIssued
    | none => false
  else true

/-- Boolean side condition: if the recorded state is `stateConnected` then a
non-nil, not-yet-closed handle is present. -/
def connOpenIfConnected (lp : LookupPeer) : Bool :=
  if lp.state = stateConnected then
    match lp.conn with
    | some c => !c.closed
    | none => false
  else true

/-- Claim C9: `Connect` never changes the recorded state field: on dial
failure it returns the dial error leaving both `state` and the stored
handle unchanged (no retry); on success it stores the new handle while
every other field, `state` included, stays what it was before the call. -/
theorem C9_connect_frame (lp : LookupPeer) (s : ConnScript) :
    connect lp none = (some Err.dialError, lp)
    ∧ connect lp (some s)
        = (none, ⟨lp.addr, some ⟨s, false, false⟩, lp.state, lp.cbNil, lp.maxBodySize⟩) :=
  ⟨rfl, rfl⟩

/-- Claim C1 (evidence of the code bug): on the stream whose 4-byte prefix is
`FF FF FF FF` (declared length `-1`) with configured limit `0`, the size
check `int64(msgSize) > limit` passes (`-1 > 0` is false) and the reader
reaches `make([]byte, -1)`, an allocation fault — not a framing error. -/
theorem C1_negative_length_allocation_fault :
    readResponseBoundedS [255, 255, 255, 255] 0 = (ReadResult.allocFault (-1), []) := by
  decide

/-- Reassembling a value below `2^32` from its four big-endian bytes. -/
theorem u32OfBytes_digits (n : Nat) (h : n < 4294967296) :
    u32OfBytes (n / 16777216 % 256) (n / 65536 % 256) (n / 256 % 256) (n % 256) = n := by
  unfold u32OfBytes
  omega

/-- A non-negative length below `2^31` decodes from its own big-endian
encoding. -/
theorem int32OfBytes_encode (n : Nat) (h : n < 2147483648) :
    int32OfBytes (n / 16777216 % 256) (n / 65536 % 256) (n / 256 % 256) (n % 256)
      = (n : Int) := by
  unfold int32OfBytes
  rw [u32OfBytes_digits n (by omega)]
  rw [if_pos h]

/-- Claim C2: for every declared length `n` with `0 ≤ n ≤ limit` (and `n`
representable in the 4-byte signed prefix), a stream carrying the big-endian
prefix followed by at least `n` payload bytes yields exactly those `n` bytes
verbatim, leaving the remainder of the stream unconsumed; a stream ending
before `n` payload bytes yields an error instead. -/
theorem C2_frame_roundtrip (n : Nat) (limit : Int) (payload rest : List Nat)
    (hn : n < 2147483648) (hlim : (n : Int) ≤ limit) (hlen : payload.length = n) :
    readResponseBoundedS (bytesOfInt32 n ++ (payload ++ rest)) limit
      = (ReadResult.ok payload, rest)
    ∧ (∀ short : List Nat, short.length < n →
        readResponseBoundedS (bytesOfInt32 n ++ short) limit
          = (ReadResult.err Err.eofError, [])) := by
  have hd := int32OfBytes_encode n hn
  have h1 : ¬ limit < (n : Int) := not_lt.mpr hlim
  have h2 : ¬ ((n : Int) < 0) := not_lt.mpr (Int.natCast_nonneg n)
  constructor
  · have hstream : bytesOfInt32 n ++ (payload ++ rest)
        = (n / 16777216 % 256) :: (n / 65536 % 256) :: (n / 256 % 256) :: (n % 256)
          :: (payload ++ rest) := rfl
    rw [hstream]
    simp only [readResponseBoundedS]
    rw [hd, if_neg h1, if_neg h2, Int.toNat_natCast, List.length_append, hlen]
    rw [if_neg (by omega)]
    rw [← hlen, List.take_left, List.drop_left]
  · intro short hshort
    have hstream : bytesOfInt32 n ++ short
        = (n / 16777216 % 256) :: (n / 65536 % 256) :: (n / 256 % 256) :: (n % 256)
          :: short := rfl
    rw [hstream]
    simp only [readResponseBoundedS]
    rw [hd, if_neg h1, if_neg h2, Int.toNat_natCast]
    rw [if_pos hshort]

/-- Concrete instance of C2: length 4, body "PONG" (bytes 80 79 78 71),
limit 10. -/
theorem C2_frame_roundtrip_witness :
    (4 < 2147483648) ∧ (((4 : Nat) : Int) ≤ 10) ∧ (([80, 79, 78, 71] : List Nat).length = 4)
    ∧ readResponseBoundedS (bytesOfInt32 4 ++ ([80, 79, 78, 71] ++ [])) 10
        = (ReadResult.ok [80, 79, 78, 71], []) :=
  ⟨by decide, by decide, by decide,
    (C2_frame_roundtrip 4 10 [80, 79, 78, 71] [] (by decide) (by decide) (by decide)).1⟩

/-- `Close` always leaves the recorded state `stateDisconnected`. -/
theorem close_state (lp : LookupPeer) : (close lp).2.state = stateDisconnected := by
  rcases lp with ⟨a, conn, st, cb, m⟩
  cases conn with
  | none => rfl
  | some c =>
    rcases c with ⟨s, clsd, mi⟩
    cases clsd <;> rfl

/-- `Close` does not touch the callback field. -/
theorem close_cbNil (lp : LookupPeer) : (close lp).2.cbNil = lp.cbNil := by
  rcases lp with ⟨a, conn, st, cb, m⟩
  cases conn with
  | none => rfl
  | some c =>
    rcases c with ⟨s, clsd, mi⟩
    cases clsd <;> rfl

/-- After `Close` on a peer that holds a handle, a handle is still held and it
is closed. -/
theorem close_conn_closed (lp : LookupPeer) (c : Conn) (hc : lp.conn = some c) :
    ∃ c2, (close lp).2.conn = some c2 ∧ c2.closed = true := by
  rcases lp with ⟨a, conn, st, cb, m⟩
  cases hc
  rcases c with ⟨s, clsd, mi⟩
  cases clsd
  · exact ⟨⟨s, true, mi⟩, rfl, rfl⟩
  · exact ⟨⟨s, true, mi⟩, rfl, rfl⟩

/-- When the peer is already `stateConnected`, `Command` skips the connect
phase entirely. -/
theorem command_connected (lp : LookupPeer) (dial : Option ConnScript) (hasCmd : Bool)
    (hs : lp.state = stateConnected) :
    command lp dial hasCmd = commandBody lp hasCmd [] := by
  unfold command
  rw [if_pos hs]

/-- Exhaustive description of the body phase of `Command` when a command is
present and a handle is held: a failed command write, a successful frame, a
frame error, or the negative-allocation panic. -/
theorem commandBody_cases (lp : LookupPeer) (c : Conn) (tr : List Event)
    (hc : lp.conn = some c) :
    (c.script.cmdWriteOk = false ∧ commandBody lp true tr
        = (CmdOutcome.err Err.writeError, (close lp).2,
           tr ++ [Event.cmdWrite false, Event.closeCalled]))
    ∨ (∃ body restStream, c.script.cmdWriteOk = true
        ∧ readResponseBoundedS c.script.response lp.maxBodySize
            = (ReadResult.ok body, restStream)
        ∧ commandBody lp true tr
            = (CmdOutcome.ok body,
               ⟨lp.addr, some ⟨⟨c.script.magicWriteOk, c.script.cmdWriteOk, restStream⟩,
                 c.closed, c.magicIssued⟩, lp.state, lp.cbNil, lp.maxBodySize⟩,
               tr ++ [Event.cmdWrite true, Event.frameRead]))
    ∨ (∃ e r, c.script.cmdWriteOk = true
        ∧ readResponseBoundedS c.script.response lp.maxBodySize = (ReadResult.err e, r)
        ∧ commandBody lp true tr
            = (CmdOutcome.err e, (close lp).2,
               tr ++ [Event.cmdWrite true, Event.frameRead, Event.closeCalled]))
    ∨ (∃ m r, c.script.cmdWriteOk = true
        ∧ readResponseBoundedS c.script.response lp.maxBodySize = (ReadResult.allocFault m, r)
        ∧ commandBody lp true tr
            = (CmdOutcome.panic (PanicKind.negAlloc m), lp,
               tr ++ [Event.cmdWrite true, Event.frameRead])) := by
  cases hw : c.script.cmdWriteOk with
  | false =>
    left
    refine ⟨rfl, ?_⟩
    simp only [commandBody, hc]
    rw [if_neg (by decide : ¬ (true = false))]
    rw [hw]
    simp
  | true =>
    right
    rcases hr : readResponseBoundedS c.script.response lp.maxBodySize with ⟨res, r⟩
    cases res with
    | ok body =>
      left
      refine ⟨body, r, rfl, rfl, ?_⟩
      simp only [commandBody, hc]
      rw [if_neg (by decide : ¬ (true = false))]
      rw [hw, hr]
      simp
    | err e =>
      right; left
      refine ⟨e, r, rfl, rfl, ?_⟩
      simp only [commandBody, hc]
      rw [if_neg (by decide : ¬ (true = false))]
      rw [hw, hr]
      simp
    | allocFault m =>
      right; right
      refine ⟨m, r, rfl, rfl, ?_⟩
      simp only [commandBody, hc]
      rw [if_neg (by decide : ¬ (true = false))]
      rw [hw, hr]
      simp

/-- Inversion of a successful bounded read: the stream was exactly a 4-byte
prefix, the returned body, and the unconsumed remainder, and the body length
agrees with the decoded prefix. -/
theorem readResponseBoundedS_ok_inv (stream : List Nat) (limit : Int) (body rest : List Nat)
    (h : readResponseBoundedS stream limit = (ReadResult.ok body, rest)) :
    ∃ b0 b1 b2 b3, stream = b0 :: b1 :: b2 :: b3 :: (body ++ rest)
      ∧ (body.length : Int) = int32OfBytes b0 b1 b2 b3 := by
  rcases stream with _ | ⟨b0, _ | ⟨b1, _ | ⟨b2, _ | ⟨b3, r⟩⟩⟩⟩
  · exact absurd h (by simp [readResponseBoundedS])
  · exact absurd h (by simp [readResponseBoundedS])
  · exact absurd h (by simp [readResponseBoundedS])
  · exact absurd h (by simp [readResponseBoundedS])
  refine ⟨b0, b1, b2, b3, ?_⟩
  simp only [readResponseBoundedS] at h
  by_cases h1 : limit < int32OfBytes b0 b1 b2 b3
  · rw [if_pos h1] at h
    exact absurd h (by simp)
  rw [if_neg h1] at h
  by_cases h2 : int32OfBytes b0 b1 b2 b3 < 0
  · rw [if_pos h2] at h
    exact absurd h (by simp)
  rw [if_neg h2] at h
  by_cases h3 : r.length < (int32OfBytes b0 b1 b2 b3).toNat
  · rw [if_pos h3] at h
    exact absurd h (by simp)
  rw [if_neg h3] at h
  rw [Prod.mk.injEq] at h
  obtain ⟨hb, hrest⟩ := h
  injection hb with hb
  subst hb
  subst hrest
  constructor
  · rw [List.take_append_drop]
  · rw [List.length_take]
    rw [min_eq_left (not_lt.mp h3)]
    exact Int.toNat_of_nonneg (not_lt.mp h2)

/-- Claim C3: whenever the declared length decoded from the 4-byte prefix is
strictly greater than the configured limit, the bounded reader fails with the
descriptive size-limit error and consumes no body byte (the remainder of the
stream is returned untouched); a `Command` call hitting this failure returns
that same error, closes the held handle, and forces `stateDisconnected`. -/
theorem C3_oversize_rejected (b0 b1 b2 b3 : Nat) (rest : List Nat) (limit : Int)
    (lp : LookupPeer) (c : Conn) (dial : Option ConnScript)
    (hm : limit < int32OfBytes b0 b1 b2 b3)
    (hs : lp.state = stateConnected) (hc : lp.conn = some c)
    (hw : c.script.cmdWriteOk = true)
    (hr : c.script.response = b0 :: b1 :: b2 :: b3 :: rest)
    (hlim : lp.maxBodySize = limit) :
    readResponseBoundedS (b0 :: b1 :: b2 :: b3 :: rest) limit
      = (ReadResult.err (Err.sizeError (int32OfBytes b0 b1 b2 b3) limit), rest)
    ∧ (command lp dial true).1 = CmdOutcome.err (Err.sizeError (int32OfBytes b0 b1 b2 b3) limit)
    ∧ (command lp dial true).2.1.state = stateDisconnected
    ∧ ∃ c2, (command lp dial true).2.1.conn = some c2 ∧ c2.closed = true := by
  have hread : readResponseBoundedS (b0 :: b1 :: b2 :: b3 :: rest) limit
      = (ReadResult.err (Err.sizeError (int32OfBytes b0 b1 b2 b3) limit), rest) := by
    simp only [readResponseBoundedS]
    rw [if_pos hm]
  have hcmd : command lp dial true
      = (CmdOutcome.err (Err.sizeError (int32OfBytes b0 b1 b2 b3) limit), (close lp).2,
         [Event.cmdWrite true, Event.frameRead, Event.closeCalled]) := by
    rw [command_connected lp dial true hs]
    simp only [commandBody, hc]
    rw [if_neg (by decide : ¬ (true = false))]
    rw [hw, hr, hlim, hread]
    simp
  refine ⟨hread, ?_, ?_, ?_⟩
  · rw [hcmd]
  · rw [hcmd]
    exact close_state lp
  · rw [hcmd]
    exact close_conn_closed lp c hc

/-- Concrete instance of C3: declared length 5, limit 4, three body bytes
present but untouched. -/
theorem C3_oversize_rejected_witness :
    ((4 : Int) < int32OfBytes 0 0 0 5)
    ∧ (readResponseBoundedS [0, 0, 0, 5, 1, 2, 3] 4
        = (ReadResult.err (Err.sizeError (int32OfBytes 0 0 0 5) 4), [1, 2, 3])
      ∧ (command ⟨"a", some ⟨⟨true, true, [0, 0, 0, 5, 1, 2, 3]⟩, false, true⟩,
            stateConnected, false, 4⟩ none true).1
          = CmdOutcome.err (Err.sizeError (int32OfBytes 0 0 0 5) 4)
      ∧ (command ⟨"a", some ⟨⟨true, true, [0, 0, 0, 5, 1, 2, 3]⟩, false, true⟩,
            stateConnected, false, 4⟩ none true).2.1.state = stateDisconnected
      ∧ ∃ c2, (command ⟨"a", some ⟨⟨true, true, [0, 0, 0, 5, 1, 2, 3]⟩, false, true⟩,
            stateConnected, false, 4⟩ none true).2.1.conn = some c2 ∧ c2.closed = true) :=
  ⟨by decide,
    C3_oversize_rejected 0 0 0 5 [1, 2, 3] 4
      ⟨"a", some ⟨⟨true, true, [0, 0, 0, 5, 1, 2, 3]⟩, false, true⟩, stateConnected, false, 4⟩
      ⟨⟨true, true, [0, 0, 0, 5, 1, 2, 3]⟩, false, true⟩ none
      (by decide) rfl rfl rfl rfl rfl⟩

/-- Claim C4: on a freshly constructed peer (state `stateDisconnected`, no
handle), the first successful `Command` produces exactly the trace
magic-write, callback, command-write, frame-read: the reconnect callback is
invoked exactly once, after the magic preamble write and before the command
payload write. -/
theorem C4_first_command_callback (addr : String) (mbs : Int) (s : ConnScript)
    (body : List Nat)
    (hok : (command (newLookupPeer addr mbs false) (some s) true).1 = CmdOutcome.ok body) :
    (command (newLookupPeer addr mbs false) (some s) true).2.2
      = [Event.magicWrite s.magicWriteOk, Event.callbackInvoked, Event.cmdWrite true,
         Event.frameRead]
    ∧ cbCount ((command (newLookupPeer addr mbs false) (some s) true).2.2) = 1 := by
  have hred : command (newLookupPeer addr mbs false) (some s) true
      = commandBody ⟨addr, some ⟨s, false, true⟩, stateConnected, false, mbs⟩ true
          [Event.magicWrite s.magicWriteOk, Event.callbackInvoked] := by
    simp [command, newLookupPeer, stateDisconnected, stateConnected]
  rw [hred] at hok ⊢
  rcases commandBody_cases ⟨addr, some ⟨s, false, true⟩, stateConnected, false, mbs⟩
      ⟨s, false, true⟩ [Event.magicWrite s.magicWriteOk, Event.callbackInvoked] rfl with
    ⟨hw, heq⟩ | ⟨bod, rs, hw, hr, heq⟩ | ⟨e, rs, hw, hr, heq⟩ | ⟨m, rs, hw, hr, heq⟩
  · rw [heq] at hok
    simp at hok
  · rw [heq]
    exact ⟨rfl, by simp [cbCount]⟩
  · rw [heq] at hok
    simp at hok
  · rw [heq] at hok
    simp at hok

/-- Concrete instance of C4: server replies with a well-formed 4-byte frame
"PONG". -/
theorem C4_first_command_callback_witness :
    ((command (newLookupPeer "a" 100 false) (some ⟨true, true, [0, 0, 0, 4, 80, 79, 78, 71]⟩)
        true).1 = CmdOutcome.ok [80, 79, 78, 71])
    ∧ ((command (newLookupPeer "a" 100 false)
          (some ⟨true, true, [0, 0, 0, 4, 80, 79, 78, 71]⟩) true).2.2
        = [Event.magicWrite true, Event.callbackInvoked, Event.cmdWrite true, Event.frameRead]
      ∧ cbCount ((command (newLookupPeer "a" 100 false)
          (some ⟨true, true, [0, 0, 0, 4, 80, 79, 78, 71]⟩) true).2.2) = 1) :=
  ⟨by decide, C4_first_command_callback "a" 100 ⟨true, true, [0, 0, 0, 4, 80, 79, 78, 71]⟩
      [80, 79, 78, 71] (by decide)⟩

/-- Claim C5: for a connected peer with a non-nil callback, (1) every error
returned by `Command` leaves the state `stateDisconnected`; (2) a returned
body is always a full frame: the response stream was exactly a 4-byte prefix
followed by that body (verbatim) and the prefix decodes to its length — never
a partial body; (3) a frame-decode error is propagated unmodified as the
result of `Command`; (4) after any error outcome, the next `Command` call
dials afresh, re-sends the magic preamble, and re-invokes the reconnect
callback exactly once. -/
theorem C5_failure_disconnect_retry (lp : LookupPeer) (c : Conn) (dial : Option ConnScript)
    (s2 : ConnScript)
    (hs : lp.state = stateConnected) (hc : lp.conn = some c) (hcb : lp.cbNil = false) :
    (∀ e, (command lp dial true).1 = CmdOutcome.err e →
        (command lp dial true).2.1.state = stateDisconnected)
    ∧ (∀ body, (command lp dial true).1 = CmdOutcome.ok body →
        ∃ b0 b1 b2 b3 tail, c.script.response = b0 :: b1 :: b2 :: b3 :: (body ++ tail)
          ∧ (body.length : Int) = int32OfBytes b0 b1 b2 b3)
    ∧ (∀ e r, readResponseBoundedS c.script.response lp.maxBodySize = (ReadResult.err e, r) →
        c.script.cmdWriteOk = true → (command lp dial true).1 = CmdOutcome.err e)
    ∧ (∀ e, (command lp dial true).1 = CmdOutcome.err e →
        ∃ tail, (command (command lp dial true).2.1 (some s2) true).2.2
            = Event.magicWrite s2.magicWriteOk :: Event.callbackInvoked :: tail
          ∧ cbCount ((command (command lp dial true).2.1 (some s2) true).2.2) = 1) := by
  have hnext : ∀ lp2 : LookupPeer, lp2.state = stateDisconnected → lp2.cbNil = false →
      ∃ tail, (command lp2 (some s2) true).2.2
          = Event.magicWrite s2.magicWriteOk :: Event.callbackInvoked :: tail
        ∧ cbCount ((command lp2 (some s2) true).2.2) = 1 := by
    intro lp2 h1 h2
    have hred2 : command lp2 (some s2) true
        = commandBody ⟨lp2.addr, some ⟨s2, false, true⟩, stateConnected, false,
            lp2.maxBodySize⟩ true
            [Event.magicWrite s2.magicWriteOk, Event.callbackInvoked] := by
      simp [command, h1, h2, stateDisconnected, stateConnected]
    rw [hred2]
    rcases commandBody_cases ⟨lp2.addr, some ⟨s2, false, true⟩, stateConnected, false,
        lp2.maxBodySize⟩ ⟨s2, false, true⟩
        [Event.magicWrite s2.magicWriteOk, Event.callbackInvoked] rfl with
      ⟨hw2, heq2⟩ | ⟨bod, rs, hw2, hr2, heq2⟩ | ⟨e2, rs, hw2, hr2, heq2⟩
        | ⟨m2, rs, hw2, hr2, heq2⟩
    · exact ⟨[Event.cmdWrite false, Event.closeCalled], by rw [heq2]; rfl,
        by rw [heq2]; simp [cbCount]⟩
    · exact ⟨[Event.cmdWrite true, Event.frameRead], by rw [heq2]; rfl,
        by rw [heq2]; simp [cbCount]⟩
    · exact ⟨[Event.cmdWrite true, Event.frameRead, Event.closeCalled], by rw [heq2]; rfl,
        by rw [heq2]; simp [cbCount]⟩
    · exact ⟨[Event.cmdWrite true, Event.frameRead], by rw [heq2]; rfl,
        by rw [heq2]; simp [cbCount]⟩
  have hred : command lp dial true = commandBody lp true [] :=
    command_connected lp dial true hs
  rcases commandBody_cases lp c [] hc with
    ⟨hw, heq⟩ | ⟨bod, rs, hw, hr, heq⟩ | ⟨e2, rs, hw, hr, heq⟩ | ⟨m2, rs, hw, hr, heq⟩
  · refine ⟨?_, ?_, ?_, ?_⟩
    · intro e he
      rw [hred, heq]
      exact close_state lp
    · intro body hb
      rw [hred, heq] at hb
      simp at hb
    · intro e r hrr hw2
      rw [hw] at hw2
      exact absurd hw2 (by decide)
    · intro e he
      rw [hred, heq]
      exact hnext (close lp).2 (close_state lp) (by rw [close_cbNil, hcb])
  · refine ⟨?_, ?_, ?_, ?_⟩
    · intro e he
      rw [hred, heq] at he
      simp at he
    · intro body hb
      rw [hred, heq] at hb
      simp only [CmdOutcome.ok.injEq] at hb
      subst hb
      obtain ⟨b0, b1, b2, b3, hst, hlen⟩ :=
        readResponseBoundedS_ok_inv c.script.response lp.maxBodySize bod rs hr
      exact ⟨b0, b1, b2, b3, rs, hst, hlen⟩
    · intro e r hrr hw2
      rw [hr] at hrr
      simp at hrr
    · intro e he
      rw [hred, heq] at he
      simp at he
  · refine ⟨?_, ?_, ?_, ?_⟩
    · intro e he
      rw [hred, heq]
      exact close_state lp
    · intro body hb
      rw [hred, heq] at hb
      simp at hb
    · intro e r hrr hw2
      rw [hr] at hrr
      rw [Prod.mk.injEq] at hrr
      obtain ⟨he2, -⟩ := hrr
      injection he2 with he2
      rw [hred, heq]
      exact congrArg CmdOutcome.err he2
    · intro e he
      rw [hred, heq]
      exact hnext (close lp).2 (close_state lp) (by rw [close_cbNil, hcb])
  · refine ⟨?_, ?_, ?_, ?_⟩
    · intro e he
      rw [hred, heq] at he
      simp at he
    · intro body hb
      rw [hred, heq] at hb
      simp at hb
    · intro e r hrr hw2
      rw [hr] at hrr
      simp at hrr
    · intro e he
      rw [hred, heq] at he
      simp at he

/-- Concrete instance of C5: connected peer whose server declares a 9-byte
frame against a 4-byte limit; the failed `Command` forces a disconnect and
the next `Command` re-dials, re-sends the magic preamble and re-invokes the
callback exactly once. -/
theorem C5_failure_disconnect_retry_witness :
    ((⟨"a", some ⟨⟨true, true, [0, 0, 0, 9]⟩, false, true⟩, stateConnected, false, 4⟩
        : LookupPeer).state = stateConnected)
    ∧ ((⟨"a", some ⟨⟨true, true, [0, 0, 0, 9]⟩, false, true⟩, stateConnected, false, 4⟩
        : LookupPeer).conn = some ⟨⟨true, true, [0, 0, 0, 9]⟩, false, true⟩)
    ∧ ((⟨"a", some ⟨⟨true, true, [0, 0, 0, 9]⟩, false, true⟩, stateConnected, false, 4⟩
        : LookupPeer).cbNil = false)
    ∧ ((∀ e, (command ⟨"a", some ⟨⟨true, true, [0, 0, 0, 9]⟩, false, true⟩, stateConnected,
            false, 4⟩ none true).1 = CmdOutcome.err e →
          (command ⟨"a", some ⟨⟨true, true, [0, 0, 0, 9]⟩, false, true⟩, stateConnected,
            false, 4⟩ none true).2.1.state = stateDisconnected)
      ∧ (∀ body, (command ⟨"a", some ⟨⟨true, true, [0, 0, 0, 9]⟩, false, true⟩, stateConnected,
            false, 4⟩ none true).1 = CmdOutcome.ok body →
          ∃ b0 b1 b2 b3 tail, [0, 0, 0, 9] = b0 :: b1 :: b2 :: b3 :: (body ++ tail)
            ∧ (body.length : Int) = int32OfBytes b0 b1 b2 b3)
      ∧ (∀ e r, readResponseBoundedS [0, 0, 0, 9] 4 = (ReadResult.err e, r) →
          true = true →
          (command ⟨"a", some ⟨⟨true, true, [0, 0, 0, 9]⟩, false, true⟩, stateConnected,
            false, 4⟩ none true).1 = CmdOutcome.err e)
      ∧ (∀ e, (command ⟨"a", some ⟨⟨true, true, [0, 0, 0, 9]⟩, false, true⟩, stateConnected,
            false, 4⟩ none true).1 = CmdOutcome.err e →
          ∃ tail, (command (command ⟨"a", some ⟨⟨true, true, [0, 0, 0, 9]⟩, false, true⟩,
              stateConnected, false, 4⟩ none true).2.1 (some ⟨true, true, []⟩) true).2.2
              = Event.magicWrite true :: Event.callbackInvoked :: tail
            ∧ cbCount ((command (command ⟨"a", some ⟨⟨true, true, [0, 0, 0, 9]⟩, false, true⟩,
                stateConnected, false, 4⟩ none true).2.1 (some ⟨true, true, []⟩) true).2.2)
                = 1)) :=
  ⟨rfl, rfl, rfl,
    C5_failure_disconnect_retry
      ⟨"a", some ⟨⟨true, true, [0, 0, 0, 9]⟩, false, true⟩, stateConnected, false, 4⟩
      ⟨⟨true, true, [0, 0, 0, 9]⟩, false, true⟩ none ⟨true, true, []⟩ rfl rfl rfl⟩

/-- Counterexample to claim C6 as stated: take a fresh peer, run one
successful `Command` (so a handle is held), then call `Close` twice.
`Close` sets `state = stateDisconnected` but never clears `lp.conn`, so the
second `Close` calls `net.Conn.Close` on the already-closed handle, which
returns the "use of closed network connection" error — the second `Close`
does return an error. -/
theorem C6_double_close_counterexample :
    (close (close (command (newLookupPeer "a" 100 false)
        (some ⟨true, true, [0, 0, 0, 0]⟩) true).2.1).2).1 = some Err.closeError := by
  decide

/-- Claim C6 amended: `Close` on an instance that never connected returns no
error, and so does a second `Close` there; on every instance a second `Close`
never panics and leaves the state `stateDisconnected`, and it returns either
no error or the transport's close-of-closed-connection error (the latter
whenever a handle is held, since `Close` does not clear the handle). -/
theorem C6_close_idempotent_amended (addr : String) (mbs : Int) (cb : Bool)
    (lp : LookupPeer) :
    (close (newLookupPeer addr mbs cb)).1 = none
    ∧ (close (close (newLookupPeer addr mbs cb)).2).1 = none
    ∧ (close (close lp).2).2.state = stateDisconnected
    ∧ ((close (close lp).2).1 = none ∨ (close (close lp).2).1 = some Err.closeError) := by
  refine ⟨rfl, rfl, close_state _, ?_⟩
  rcases lp with ⟨a, conn, st, cb2, m⟩
  cases conn with
  | none => exact Or.inl rfl
  | some c =>
    rcases c with ⟨s, clsd, mi⟩
    cases clsd
    · exact Or.inr rfl
    · exact Or.inr rfl

/-- Claim C7: a `Command` call with a nil command returns an empty result and
no error, connects (writing the preamble, and invoking the callback when
coming from `stateDisconnected`) if the state was not `stateConnected`,
performs no payload write and no frame read, and leaves the peer
`stateConnected` with an open handle. -/
theorem C7_nil_command_probe (lp : LookupPeer) (s : ConnScript)
    (hcb : lp.cbNil = false) (hco : connOpenIfConnected lp = true) :
    (command lp (some s) false).1 = CmdOutcome.ok []
    ∧ (command lp (some s) false).2.1.state = stateConnected
    ∧ (∃ c, (command lp (some s) false).2.1.conn = some c ∧ c.closed = false)
    ∧ (command lp (some s) false).2.2
        = (if lp.state = stateConnected then ([] : List Event)
           else if lp.state = stateDisconnected then
             [Event.magicWrite s.magicWriteOk, Event.callbackInvoked]
           else [Event.magicWrite s.magicWriteOk]) := by
  by_cases hsc : lp.state = stateConnected
  · have hcmd : command lp (some s) false = (CmdOutcome.ok [], lp, []) := by
      rw [command_connected lp (some s) false hsc]
      rfl
    rw [hcmd]
    simp only [connOpenIfConnected, if_pos hsc] at hco
    refine ⟨rfl, hsc, ?_, by rw [if_pos hsc]⟩
    rcases hconn : lp.conn with _ | c
    · rw [hconn] at hco
      exact absurd hco (by decide)
    · rw [hconn] at hco
      exact ⟨c, rfl, by simpa using hco⟩
  · by_cases hsd : lp.state = stateDisconnected
    · have hcmd : command lp (some s) false
          = (CmdOutcome.ok [], ⟨lp.addr, some ⟨s, false, true⟩, stateConnected, false,
              lp.maxBodySize⟩,
             [Event.magicWrite s.magicWriteOk, Event.callbackInvoked]) := by
        simp [command, commandBody, hsc, hsd, hcb, stateDisconnected, stateConnected]
      rw [hcmd]
      exact ⟨rfl, rfl, ⟨⟨s, false, true⟩, rfl, rfl⟩, by rw [if_neg hsc, if_pos hsd]⟩
    · have hcmd : command lp (some s) false
          = (CmdOutcome.ok [], ⟨lp.addr, some ⟨s, false, true⟩, stateConnected, lp.cbNil,
              lp.maxBodySize⟩,
             [Event.magicWrite s.magicWriteOk]) := by
        simp [command, commandBody, hsc, hsd]
      rw [hcmd]
      exact ⟨rfl, rfl, ⟨⟨s, false, true⟩, rfl, rfl⟩, by rw [if_neg hsc, if_neg hsd]⟩

/-- Concrete instance of C7: fresh peer, nil command: empty result, connected,
open handle, trace is exactly preamble-then-callback. -/
theorem C7_nil_command_probe_witness :
    ((newLookupPeer "a" 7 false).cbNil = false)
    ∧ (connOpenIfConnected (newLookupPeer "a" 7 false) = true)
    ∧ ((command (newLookupPeer "a" 7 false) (some ⟨true, true, []⟩) false).1 = CmdOutcome.ok []
      ∧ (command (newLookupPeer "a" 7 false) (some ⟨true, true, []⟩) false).2.1.state
          = stateConnected
      ∧ (∃ c, (command (newLookupPeer "a" 7 false) (some ⟨true, true, []⟩) false).2.1.conn
            = some c ∧ c.closed = false)
      ∧ (command (newLookupPeer "a" 7 false) (some ⟨true, true, []⟩) false).2.2
          = (if (newLookupPeer "a" 7 false).state = stateConnected then ([] : List Event)
             else if (newLookupPeer "a" 7 false).state = stateDisconnected then
               [Event.magicWrite true, Event.callbackInvoked]
             else [Event.magicWrite true])) :=
  ⟨rfl, by decide,
    C7_nil_command_probe (newLookupPeer "a" 7 false) ⟨true, true, []⟩ rfl (by decide)⟩

/-- The body phase of `Command` never invokes the callback, so it can never
raise the nil-callback panic. -/
theorem commandBody_no_nilCallback (lp : LookupPeer) (h2 : Bool) (tr : List Event) :
    (commandBody lp h2 tr).1 ≠ CmdOutcome.panic PanicKind.nilCallback := by
  cases h2 with
  | false => simp [commandBody]
  | true =>
    rcases hconn : lp.conn with _ | c
    · simp [commandBody, hconn]
    · rcases commandBody_cases lp c tr hconn with
        ⟨hw, heq⟩ | ⟨bod, rs, hw, hr, heq⟩ | ⟨e2, rs, hw, hr, heq⟩ | ⟨m2, rs, hw, hr, heq⟩
      · rw [heq]
        simp
      · rw [heq]
        simp
      · rw [heq]
        simp
      · rw [heq]
        simp

/-- Counterexample to claim C8 as stated, in both respects.  First: on a
fresh peer, dial succeeds but the magic-preamble write fails; `Command`
ignores the write's error, so the run ends with `state = stateConnected`
while the only preamble write in the trace is the failed one — the preamble
was never *successfully* sent on the handle.  Second: starting from a peer
that reached `stateConnected` through a successful `Command` (where the
invariant still holds), a bare `Connect` — one of the operations the claim
quantifies over — stores a fresh handle on which no preamble write has been
issued at all, while the recorded state stays `stateConnected`: the
invariant, even weakened to "write issued", is not preserved by `Connect`. -/
theorem C8_magic_not_sent_counterexample :
    (((command (newLookupPeer "a" 100 false) (some ⟨false, true, [0, 0, 0, 0]⟩) true).2.1.state
        = stateConnected)
      ∧ ((command (newLookupPeer "a" 100 false) (some ⟨false, true, [0, 0, 0, 0]⟩) true).2.2
        = [Event.magicWrite false, Event.callbackInvoked, Event.cmdWrite true,
           Event.frameRead]))
    ∧ (magicInv (command (newLookupPeer "a" 100 false) (some ⟨true, true, [0, 0, 0, 0]⟩)
          true).2.1 = true
      ∧ magicInv (connect (command (newLookupPeer "a" 100 false)
          (some ⟨true, true, [0, 0, 0, 0]⟩) true).2.1 (some ⟨true, true, []⟩)).2 = false
      ∧ (connect (command (newLookupPeer "a" 100 false) (some ⟨true, true, [0, 0, 0, 0]⟩)
          true).2.1 (some ⟨true, true, []⟩)).2.state = stateConnected
      ∧ (connect (command (newLookupPeer "a" 100 false) (some ⟨true, true, [0, 0, 0, 0]⟩)
          true).2.1 (some ⟨true, true, []⟩)).2.conn
          = some ⟨⟨true, true, []⟩, false, false⟩) := by
  decide

/-- Preservation of the (amended) connection invariant by the body phase. -/
theorem commandBody_magicInv (a1 : String) (conn1 : Option Conn) (st1 : Nat) (cb1 : Bool)
    (m1 : Int) (h2 : Bool) (tr : List Event)
    (hi : magicInv ⟨a1, conn1, st1, cb1, m1⟩ = true) :
    magicInv (commandBody ⟨a1, conn1, st1, cb1, m1⟩ h2 tr).2.1 = true := by
  cases h2 with
  | false => exact hi
  | true =>
    cases conn1 with
    | none => exact hi
    | some c1 =>
      rcases c1 with ⟨⟨mw1, cw1, resp1⟩, cl1, mi1⟩
      rcases commandBody_cases ⟨a1, some ⟨⟨mw1, cw1, resp1⟩, cl1, mi1⟩, st1, cb1, m1⟩
          ⟨⟨mw1, cw1, resp1⟩, cl1, mi1⟩ tr rfl with
        ⟨hw, heq⟩ | ⟨bod, rs, hw, hr, heq⟩ | ⟨e2, rs, hw, hr, heq⟩ | ⟨m2, rs, hw, hr, heq⟩
      · rw [heq]
        simp [magicInv, close_state, stateDisconnected, stateConnected]
      · rw [heq]
        simp only [magicInv] at hi ⊢
        simpa using hi
      · rw [heq]
        simp [magicInv, close_state, stateDisconnected, stateConnected]
      · rw [heq]
        exact hi

/-- Claim C8 amended: the invariant "state `stateConnected` implies a non-nil
handle on which the magic-preamble write has been *issued* (its success is
not guaranteed, the write error being ignored)" holds at construction and is
preserved by `Close` and by `Command`; it is not preserved by a bare
`Connect` on an already-Connected instance, which stores a fresh handle
without issuing any preamble while the recorded state stays `stateConnected`
— both departures from the original claim are exhibited by the
counterexample. -/
theorem C8_invariant_amended (addr : String) (mbs : Int) (cb : Bool) (lp : LookupPeer)
    (dial : Option ConnScript) (hasCmd : Bool) (hinv : magicInv lp = true) :
    magicInv (newLookupPeer addr mbs cb) = true
    ∧ magicInv (close lp).2 = true
    ∧ magicInv (command lp dial hasCmd).2.1 = true := by
  refine ⟨rfl, ?_, ?_⟩
  · simp [magicInv, close_state, stateDisconnected, stateConnected]
  · by_cases hsc : lp.state = stateConnected
    · rw [command_connected lp dial hasCmd hsc]
      rcases lp with ⟨a1, conn1, st1, cb1, m1⟩
      exact commandBody_magicInv a1 conn1 st1 cb1 m1 hasCmd [] hinv
    · cases dial with
      | none =>
        have hcmd : command lp none hasCmd = (CmdOutcome.err Err.dialError, lp, []) := by
          simp [command, hsc]
        rw [hcmd]
        exact hinv
      | some s =>
        by_cases hsd : lp.state = stateDisconnected
        · cases hcbv : lp.cbNil with
          | true =>
            have hcmd : command lp (some s) hasCmd
                = (CmdOutcome.panic PanicKind.nilCallback,
                   ⟨lp.addr, some ⟨s, false, true⟩, stateConnected, lp.cbNil, lp.maxBodySize⟩,
                   [Event.magicWrite s.magicWriteOk]) := by
              simp [command, hsc, hsd, hcbv, stateDisconnected, stateConnected]
            rw [hcmd]
            simp [magicInv]
          | false =>
            have hcmd : command lp (some s) hasCmd
                = commandBody ⟨lp.addr, some ⟨s, false, true⟩, stateConnected, lp.cbNil,
                    lp.maxBodySize⟩ hasCmd
                    [Event.magicWrite s.magicWriteOk, Event.callbackInvoked] := by
              simp [command, hsc, hsd, hcbv, stateDisconnected, stateConnected]
            rw [hcmd]
            exact commandBody_magicInv lp.addr (some ⟨s, false, true⟩) stateConnected lp.cbNil
              lp.maxBodySize hasCmd _ (by simp [magicInv])
        · have hcmd : command lp (some s) hasCmd
              = commandBody ⟨lp.addr, some ⟨s, false, true⟩, stateConnected, lp.cbNil,
                  lp.maxBodySize⟩ hasCmd [Event.magicWrite s.magicWriteOk] := by
            simp [command, hsc, hsd]
          rw [hcmd]
          exact commandBody_magicInv lp.addr (some ⟨s, false, true⟩) stateConnected lp.cbNil
            lp.maxBodySize hasCmd _ (by simp [magicInv])

/-- Concrete instance of the amended C8: a fresh peer, a peer after `Close`,
and a peer after a successful `Command` all satisfy the invariant. -/
theorem C8_invariant_amended_witness :
    (magicInv (newLookupPeer "b" 5 false) = true)
    ∧ (magicInv (newLookupPeer "a" 9 true) = true
      ∧ magicInv (close (newLookupPeer "b" 5 false)).2 = true
      ∧ magicInv (command (newLookupPeer "b" 5 false) (some ⟨true, true, [0, 0, 0, 0]⟩)
          true).2.1 = true) :=
  ⟨by decide, C8_invariant_amended "a" 9 true (newLookupPeer "b" 5 false)
      (some ⟨true, true, [0, 0, 0, 0]⟩) true (by decide)⟩

/-- Claim C10: the constructor accepts a nil callback, but `Command` invokes
the callback unconditionally whenever it connects from `stateDisconnected`,
so with a nil callback any such `Command` call (the first one included)
dereferences nil and panics; with a non-nil callback `Command` can never
raise that panic. -/
theorem C10_nil_callback_panic (lp : LookupPeer) (s : ConnScript) (hasCmd : Bool)
    (hs : lp.state = stateDisconnected) (hcb : lp.cbNil = true) :
    (command lp (some s) hasCmd).1 = CmdOutcome.panic PanicKind.nilCallback
    ∧ (∀ (lp2 : LookupPeer) (dial : Option ConnScript) (h2 : Bool), lp2.cbNil = false →
        (command lp2 dial h2).1 ≠ CmdOutcome.panic PanicKind.nilCallback) := by
  constructor
  · have hcmd : command lp (some s) hasCmd
        = (CmdOutcome.panic PanicKind.nilCallback,
           ⟨lp.addr, some ⟨s, false, true⟩, stateConnected, lp.cbNil, lp.maxBodySize⟩,
           [Event.magicWrite s.magicWriteOk]) := by
      simp [command, hs, hcb, stateDisconnected, stateConnected]
    rw [hcmd]
  · intro lp2 dial h2 hcb2
    by_cases hsc : lp2.state = stateConnected
    · rw [command_connected lp2 dial h2 hsc]
      exact commandBody_no_nilCallback lp2 h2 []
    · cases dial with
      | none =>
        have hcmd : command lp2 none h2 = (CmdOutcome.err Err.dialError, lp2, []) := by
          simp [command, hsc]
        rw [hcmd]
        simp
      | some s2 =>
        by_cases hsd : lp2.state = stateDisconnected
        · have hcmd : command lp2 (some s2) h2
              = commandBody ⟨lp2.addr, some ⟨s2, false, true⟩, stateConnected, lp2.cbNil,
                  lp2.maxBodySize⟩ h2
                  [Event.magicWrite s2.magicWriteOk, Event.callbackInvoked] := by
            simp [command, hsc, hsd, hcb2, stateDisconnected, stateConnected]
          rw [hcmd]
          exact commandBody_no_nilCallback _ h2 _
        · have hcmd : command lp2 (some s2) h2
              = commandBody ⟨lp2.addr, some ⟨s2, false, true⟩, stateConnected, lp2.cbNil,
                  lp2.maxBodySize⟩ h2 [Event.magicWrite s2.magicWriteOk] := by
            simp [command, hsc, hsd]
          rw [hcmd]
          exact commandBody_no_nilCallback _ h2 _

/-- Concrete instance of C10: fresh peer with a nil callback, successful
dial: `Command` panics. -/
theorem C10_nil_callback_panic_witness :
    ((newLookupPeer "a" 0 true).state = stateDisconnected)
    ∧ ((newLookupPeer "a" 0 true).cbNil = true)
    ∧ ((command (newLookupPeer "a" 0 true) (some ⟨true, true, []⟩) true).1
        = CmdOutcome.panic PanicKind.nilCallback
      ∧ (∀ (lp2 : LookupPeer) (dial : Option ConnScript) (h2 : Bool), lp2.cbNil = false →
          (command lp2 dial h2).1 ≠ CmdOutcome.panic PanicKind.nilCallback)) :=
  ⟨rfl, rfl, C10_nil_callback_panic (newLookupPeer "a" 0 true) ⟨true, true, []⟩ true rfl rfl⟩
